import Mathlib

/-!
Verification of the StudyBuddy front-end scripts.

This file gives a shallow embedding, in Lean, of the form-interaction
pipeline, the field validators, the persisted-preference stores
(theme settings and social-share progress) and the notification
contract of the repository, and proves or refutes the specification
claims about them.

Sources embedded here:
- `src/help-script.js`: `TicketManager` (six field validators and
  `handleSubmit`), `ToastManager`.
- `src/signin-script.js`: `ThemeManager` (`saveTheme`, `loadSavedTheme`,
  `hexToRgb`, `rgbToHex`, `adjustBrightness`), `FormValidator`
  (`validateEmail`, `validatePhone`).
- `src/unnamed/part_000`: `DonationManager.handleSubmit`,
  `SocialSharingManager` (`registerShare`, `unlockChampionStatus`,
  `saveProgress`, `loadProgress`).

Modelling conventions:
- JS strings are Lean `String`s; `.length` and index arithmetic are
  modelled on code points (all inputs in the claims are ASCII, where
  this agrees with UTF-16 units).
- JS numbers that the embedded code paths use are integers and are
  modelled as `Int`/`Nat`.
- DOM effects are reduced to the state the claims mention: the error
  marks attached to fields, the toast queue, the submit-control busy
  flag, and the hidden/visible state of the champion section.
- `localStorage` (the storage substrate) is an external collaborator;
  one slot per logical store is modelled as an `Option` of the stored
  value.  A stored string is either the serialization this module
  writes (represented structurally) or a string that is not valid
  JSON; `JSON.parse` succeeds on the former and throws on the latter,
  and functions whose JS counterpart can throw return a `LoadOutcome`
  that records whether an exception escaped.
-/

namespace StudyBuddy

/-! ### JS primitives: whitespace, trim, toLowerCase -/

/-- The code points matched by the JS regex class `\\s`. -/
def wsN (v : Nat) : Bool :=
  v = 32 || v = 9 || v = 10 || v = 11 || v = 12 || v = 13 ||
  v = 160 || v = 5760 || (8192 <= v && v <= 8202) ||
  v = 8232 || v = 8233 || v = 8239 || v = 8287 || v = 12288 || v = 65279

/-- The characters matched by the JS regex class `\\s` (also the set
trimmed by `String.prototype.trim`). -/
def jsWhitespace (c : Char) : Bool := wsN c.toNat

/-- The JS regex class `\\d` = `[0-9]`, on code points. -/
def isDigitN (v : Nat) : Bool := 48 <= v && v <= 57

/-- An ASCII decimal digit character. -/
def isDigitC (c : Char) : Bool := isDigitN c.toNat

/-- JS `String.prototype.trim`: remove leading and trailing whitespace. -/
def jsTrim (s : String) : String :=
  String.mk (((s.toList.dropWhile jsWhitespace).reverse.dropWhile jsWhitespace).reverse)

/-- JS `String.prototype.toLowerCase`, restricted to ASCII (the only
characters the hex-color code feeds it). -/
def jsToLower (c : Char) : Char :=
  if 65 ≤ c.toNat ∧ c.toNat ≤ 90 then Char.ofNat (c.toNat + 32) else c

/-! ### Notification sink (`ToastManager.show`) -/

/-- Toast severity, the `type` argument of `ToastManager.show`. -/
inductive Severity where
  | info
  | success
  | error
deriving DecidableEq, Repr

/-- One toast notification: message, severity and display duration in ms
(`ToastManager.show(message, type = "info", duration = 4000)`). -/
structure Toast where
  msg : String
  sev : Severity
  durationMs : Nat
deriving DecidableEq, Repr

/-! ### Field Validator: `FormValidator` of `src/signin-script.js` -/

/-- The `{isValid, message}` pair returned by every validator. -/
structure VResult where
  isValid : Bool
  message : String
deriving DecidableEq, Repr

/-- Matcher for the email regex
`/^[^\s@]+@[^\s@]+\.[^\s@]+$/` (`FormValidator.rules.email.pattern`,
also `TicketManager.validateEmail`'s `emailPattern`).  The regex splits
the string at its first `'@'` (the class `[^\s@]` cannot match `'@'`):
a nonempty whitespace-free local part, then `'@'`, then a domain with
no whitespace or `'@'` containing a dot with nonempty pieces on both
sides. -/
def emailPatternTest (s : String) : Bool :=
  match s.toList.dropWhile (fun c => c ≠ '@') with
  | [] => false
  | _ :: dom =>
      !(s.toList.takeWhile (fun c => c ≠ '@')).isEmpty &&
      (s.toList.takeWhile (fun c => c ≠ '@')).all (fun c => !jsWhitespace c) &&
      dom.all (fun c => !jsWhitespace c && c ≠ '@') &&
      ((dom.drop 1).dropLast).contains '.'

/-- Matcher for the phone regex `/^[\d\s\-\(\)]+$/`
(`FormValidator.rules.phone.pattern`). -/
def phonePatternTest (s : String) : Bool :=
  !s.isEmpty && s.toList.all (fun c => isDigitC c || jsWhitespace c || c = '-' || c = '(' || c = ')')

namespace FormValidator

/-- `FormValidator.validateEmail` (src/signin-script.js:371-381).  The
required check trims; the pattern test runs on the raw value. -/
def validateEmail (email : String) : VResult :=
  if email = "" ∨ jsTrim email = "" then
    ⟨false, "Email is required"⟩
  else if !emailPatternTest email then
    ⟨false, "Please enter a valid email address"⟩
  else
    ⟨true, ""⟩

/-- `FormValidator.validatePhone` (src/signin-script.js:409-425).
`phone.replace(/\D/g, "")` keeps exactly the ASCII digits. -/
def validatePhone (phone : String) : VResult :=
  if phone = "" ∨ jsTrim phone = "" then
    ⟨false, "Phone number is required"⟩
  else
    let digitsOnly := phone.toList.filter isDigitC
    if digitsOnly.length < 10 then
      ⟨false, "Please enter a valid phone number"⟩
    else if !phonePatternTest phone then
      ⟨false, "Please enter a valid phone number"⟩
    else
      ⟨true, ""⟩

end FormValidator

/-! ### Ticket form pipeline: `TicketManager` of `src/help-script.js` -/

/-- A `showError(input, errorId, message)` call: the field that gets the
`error` class / `aria-invalid`, the id of its display target, and the
message written there. -/
structure Mark where
  field : String
  errorId : String
  message : String
deriving DecidableEq, Repr

/-- The raw values of the ticket-form fields at submit time. -/
structure TicketForm where
  name : String
  email : String
  category : String
  priority : String
  subject : String
  description : String
  hasFile : Bool
deriving DecidableEq, Repr

namespace TicketManager

/-- `TicketManager.validateName` (src/help-script.js:198-216): returns
the boolean result together with the `showError` calls it makes. -/
def validateName (f : TicketForm) : Bool × List Mark :=
  let v := jsTrim f.name
  if v = "" then
    (false, [⟨"ticketName", "nameError", "Please enter your name"⟩])
  else if v.length < 2 then
    (false, [⟨"ticketName", "nameError", "Name must be at least 2 characters"⟩])
  else
    (true, [])

/-- `TicketManager.validateEmail` (src/help-script.js:224-247): trims,
then tests the same email pattern as `FormValidator`. -/
def validateEmail (f : TicketForm) : Bool × List Mark :=
  let v := jsTrim f.email
  if v = "" then
    (false, [⟨"ticketEmail", "ticketEmailError", "Please enter your email"⟩])
  else if !emailPatternTest v then
    (false, [⟨"ticketEmail", "ticketEmailError", "Please enter a valid email address"⟩])
  else
    (true, [])

/-- `TicketManager.validateCategory` (src/help-script.js:255-266). -/
def validateCategory (f : TicketForm) : Bool × List Mark :=
  if f.category = "" then
    (false, [⟨"ticketCategory", "categoryError", "Please select a category"⟩])
  else
    (true, [])

/-- `TicketManager.validatePriority` (src/help-script.js:274-285). -/
def validatePriority (f : TicketForm) : Bool × List Mark :=
  if f.priority = "" then
    (false, [⟨"ticketPriority", "priorityError", "Please select a priority level"⟩])
  else
    (true, [])

/-- `TicketManager.validateSubject` (src/help-script.js:293-315). -/
def validateSubject (f : TicketForm) : Bool × List Mark :=
  let v := jsTrim f.subject
  if v = "" then
    (false, [⟨"ticketSubject", "subjectError", "Please enter a subject"⟩])
  else if v.length < 5 then
    (false, [⟨"ticketSubject", "subjectError", "Subject must be at least 5 characters"⟩])
  else
    (true, [])

/-- `TicketManager.validateDescription` (src/help-script.js:323-354). -/
def validateDescription (f : TicketForm) : Bool × List Mark :=
  let v := jsTrim f.description
  if v = "" then
    (false, [⟨"ticketDescription", "descriptionError", "Please describe your issue"⟩])
  else if v.length < 20 then
    (false, [⟨"ticketDescription", "descriptionError",
      "Please provide more details (at least 20 characters)"⟩])
  else if v.length > 1000 then
    (false, [⟨"ticketDescription", "descriptionError",
      "Description is too long (max 1000 characters)"⟩])
  else
    (true, [])

/-- The array literal of `handleSubmit` (src/help-script.js:403-410):
all six validators run, in declared order, before `every` is applied. -/
def checks (f : TicketForm) : List (Bool × List Mark) :=
  [validateName f, validateEmail f, validateCategory f,
   validatePriority f, validateSubject f, validateDescription f]

/-- Outcome of one `handleSubmit` call.  `invoked` records whether the
external asynchronous operation (`submitTicket`) was called,
`formAfter` the field values once the attempt settles, and
`loadingAfter` the submit control's busy state at that point. -/
structure SubmitResult where
  marks : List Mark
  toasts : List Toast
  invoked : Bool
  formAfter : TicketForm
  loadingAfter : Bool
deriving DecidableEq, Repr

/-- The cleared form produced by `this.form.reset()`. -/
def emptyForm : TicketForm := ⟨"", "", "", "", "", "", false⟩

/-- `TicketManager.handleSubmit` (src/help-script.js:399-463).  The
external call is opaque (spec section 6): `opRejects` is its outcome,
and `ticketNumber` stands for the locally generated random id used in
the success toast. -/
def handleSubmit (f : TicketForm) (opRejects : Bool) (ticketNumber : String) : SubmitResult :=
  let results := checks f
  let marks := (results.map Prod.snd).flatten
  let isValid := results.all Prod.fst
  if !isValid then
    { marks := marks
      toasts := [⟨"Please fix the errors in the form", .error, 4000⟩]
      invoked := false
      formAfter := f
      loadingAfter := false }
  else if opRejects then
    { marks := marks
      toasts := [⟨"Failed to submit ticket. Please try again or email us directly.", .error, 4000⟩]
      invoked := true
      formAfter := f
      loadingAfter := false }
  else
    { marks := marks
      toasts := [⟨"Ticket #" ++ ticketNumber ++ " created! We'll email you soon at "
                    ++ jsTrim f.email, .success, 6000⟩]
      invoked := true
      formAfter := emptyForm
      loadingAfter := false }

end TicketManager

/-! ### Donation form pipeline: `DonationManager` of `src/unnamed/part_000` -/

/-- The inputs `DonationManager.handleSubmit` reads: the two text
fields, the optional custom-amount input (`none` when the element is
absent), and the instance fields `selectedAmount` (a number or `null`)
and `selectedFrequency` (defaults `25` and `"monthly"`). -/
structure DonationForm where
  donorName : String
  donorEmail : String
  customAmount : Option String
  selectedAmount : Option Int
  selectedFrequency : String
deriving DecidableEq, Repr

/-- The JS value of `finalAmount = customAmount || this.selectedAmount`:
a string, a number, or null/undefined. -/
inductive JsAmount where
  | str (s : String)
  | num (n : Int)
  | nullish
deriving DecidableEq, Repr

/-- JS `ToNumber` on the decimal-integer strings this flow feeds it
(`none` stands for `NaN`; non-integer numeric literals are outside the
scope of the claims). -/
def jsToNumberInt (s : String) : Option Int := (jsTrim s).toInt?

namespace DonationManager

/-- `customAmount || this.selectedAmount` (src/unnamed/part_000:1471):
the custom-amount string when the element exists and the string is
truthy (nonempty), else `selectedAmount`. -/
def finalAmount (f : DonationForm) : JsAmount :=
  match f.customAmount with
  | some s => if s ≠ "" then .str s else
      match f.selectedAmount with
      | some n => .num n
      | none => .nullish
  | none =>
      match f.selectedAmount with
      | some n => .num n
      | none => .nullish

end DonationManager

/-- JS falsiness of `finalAmount` (`!finalAmount`). -/
def JsAmount.falsy : JsAmount → Bool
  | .str s => s = ""
  | .num n => n = 0
  | .nullish => true

/-- JS `finalAmount <= 0`: numbers compare directly, strings through
`ToNumber` (`NaN` comparisons are false), `null` coerces to `0`. -/
def JsAmount.leZero : JsAmount → Bool
  | .str s =>
      match jsToNumberInt s with
      | some n => n ≤ 0
      | none => false
  | .num n => n ≤ 0
  | .nullish => true

/-- The textual form of `finalAmount` used in the success toast. -/
def JsAmount.text : JsAmount → String
  | .str s => s
  | .num n => toString n
  | .nullish => "null"

namespace DonationManager

/-- Outcome of one `DonationManager.handleSubmit` call. -/
structure SubmitResult where
  toasts : List Toast
  invoked : Bool
  formAfter : DonationForm
  loadingAfter : Bool
deriving DecidableEq, Repr

/-- `this.donationForm.reset()`: clears the DOM-backed inputs; the
instance fields `selectedAmount` / `selectedFrequency` are untouched. -/
def resetForm (f : DonationForm) : DonationForm :=
  { f with donorName := "", donorEmail := "",
           customAmount := f.customAmount.map (fun _ => "") }

/-- `DonationManager.handleSubmit` (src/unnamed/part_000:1456-1508).
Validation is two aggregate checks (required name/email, then a
positive amount), each returning immediately on failure; no per-field
marking and no email-format test.  `opRejects` is the outcome of the
opaque external call `processDonation`. -/
def handleSubmit (f : DonationForm) (opRejects : Bool) : SubmitResult :=
  if f.donorName = "" ∨ f.donorEmail = "" then
    { toasts := [⟨"Please fill in all required fields", .error, 4000⟩]
      invoked := false
      formAfter := f
      loadingAfter := false }
  else
    let amt := finalAmount f
    if amt.falsy || amt.leZero then
      { toasts := [⟨"Please select or enter a donation amount", .error, 4000⟩]
        invoked := false
        formAfter := f
        loadingAfter := false }
    else if opRejects then
      { toasts := [⟨"Payment failed. Please try again.", .error, 4000⟩]
        invoked := true
        formAfter := f
        loadingAfter := false }
    else
      { toasts := [⟨"Thank you for your " ++ f.selectedFrequency ++ " donation of $"
                     ++ amt.text ++ "! You're changing lives. 💙", .success, 6000⟩]
        invoked := true
        formAfter := resetForm f
        loadingAfter := false }

end DonationManager

/-! ### Persisted share-progress store: `SocialSharingManager` -/

/-- Result of a JS call that either returns normally or lets an
exception escape; in both cases `st` is the state at that point. -/
inductive LoadOutcome (α : Type) where
  | ok (st : α)
  | threw (st : α)
deriving DecidableEq, Repr

/-- A raw string stored under the share-progress key
`"studyflow-share-progress"`: either the `JSON.stringify` output of
`saveProgress` (kept structurally: the serialized `count` and
`platforms` fields) or a string that is not valid JSON.  `JSON.parse`
returns the structure in the first case and throws in the second. -/
inductive ProgressStored where
  | notJson (raw : String)
  | data (count : Int) (platforms : List String)
deriving DecidableEq, Repr

/-- JS truthiness of the stored string (`if (saved)`): serialized
objects are nonempty strings; a raw string is falsy exactly when
empty. -/
def ProgressStored.truthy : ProgressStored → Bool
  | .notJson raw => raw ≠ ""
  | .data _ _ => true

/-- In-memory state of a `SocialSharingManager`: `shareCount`, the
`sharedPlatforms` JS `Set` (insertion-ordered, duplicate-free by
construction), and whether the champion section still carries the
`hidden` class. -/
structure ShareState where
  shareCount : Int
  sharedPlatforms : List String
  championHidden : Bool
deriving DecidableEq, Repr

/-- The constructor's initial state (`shareCount = 0`, empty set); the
champion section starts hidden in the page markup. -/
def initialShareState : ShareState := ⟨0, [], true⟩

namespace SocialSharingManager

/-- JS `Set` insertion: append only if absent. -/
def setAdd (l : List String) (p : String) : List String :=
  if p ∈ l then l else l ++ [p]

/-- `new Set(array)`: insert the elements in order. -/
def setFromList (l : List String) : List String :=
  l.foldl setAdd []

/-- `SocialSharingManager.saveProgress` (src/unnamed/part_000:1724-1732):
`JSON.stringify({count: this.shareCount, platforms: Array.from(this.sharedPlatforms)})`. -/
def saveProgress (st : ShareState) : ProgressStored :=
  .data st.shareCount st.sharedPlatforms

/-- `SocialSharingManager.unlockChampionStatus`
(src/unnamed/part_000:1672-1684): removes the `hidden` class only if it
is present. -/
def unlockChampionStatus (st : ShareState) : ShareState :=
  if st.championHidden then { st with championHidden := false } else st

/-- Result of one `registerShare` call: new in-memory state, the stored
slot, and the toasts shown. -/
structure RegisterResult where
  state : ShareState
  store : Option ProgressStored
  toasts : List Toast
deriving DecidableEq, Repr

/-- `SocialSharingManager.registerShare` (src/unnamed/part_000:1600-1625).
An already-recorded platform: info toast, immediate return.  Otherwise
add the platform, increment the count, save, then call
`unlockChampionStatus` only when `shareCount >= 3` **and** the champion
section is *not* hidden (`!classList.contains("hidden")` — the guard as
written in the source), and finally show the success toast. -/
def registerShare (platform : String) (st : ShareState) (store : Option ProgressStored) :
    RegisterResult :=
  if platform ∈ st.sharedPlatforms then
    ⟨st, store, [⟨"You already shared on this platform!", .info, 4000⟩]⟩
  else
    let st1 : ShareState :=
      { st with sharedPlatforms := st.sharedPlatforms ++ [platform],
                shareCount := st.shareCount + 1 }
    let store1 := some (saveProgress st1)
    let st2 := if 3 ≤ st1.shareCount ∧ st1.championHidden = false
               then unlockChampionStatus st1 else st1
    ⟨st2, store1, [⟨"Shared on " ++ platform ++ "! 🎉", .success, 4000⟩]⟩

/-- `SocialSharingManager.loadProgress` (src/unnamed/part_000:1739-1756).
An absent or empty stored value fails the `if (saved)` guard and leaves
the state untouched.  A non-empty string that is not valid JSON makes
`JSON.parse` throw — there is no try/catch, so the exception escapes
before any assignment.  Parsed data is restored with
`data.count || 0` and `new Set(data.platforms || [])`, and
`unlockChampionStatus` runs whenever the restored count reaches 3. -/
def loadProgress (stored : Option ProgressStored) (st : ShareState) :
    LoadOutcome ShareState :=
  match stored with
  | none => .ok st
  | some sv =>
      if sv.truthy then
        match sv with
        | .notJson _ => .threw st
        | .data count platforms =>
            let st1 : ShareState :=
              { st with shareCount := if count = 0 then 0 else count,
                        sharedPlatforms := setFromList platforms }
            if 3 ≤ st1.shareCount then .ok (unlockChampionStatus st1) else .ok st1
      else .ok st

end SocialSharingManager

/-! ### Hex colors and the theme store: `ThemeManager` of `src/signin-script.js` -/

/-- The character class `[a-f\d]` with the `i` flag: an ASCII hex
digit, on code points. -/
def isHexDigitN (v : Nat) : Bool :=
  (48 ≤ v && v ≤ 57) || (97 ≤ v && v ≤ 102) || (65 ≤ v && v ≤ 70)

/-- An ASCII hex digit character. -/
def isHexDigitC (c : Char) : Bool := isHexDigitN c.toNat

/-- Value of a hex digit, by code point (`parseInt(-, 16)` per digit). -/
def hexValN (v : Nat) : Nat :=
  if v ≤ 57 then v - 48 else if 97 ≤ v then v - 87 else v - 55

/-- `parseInt` of a two-hex-digit string. -/
def hexPair (h l : Char) : Nat := 16 * hexValN h.toNat + hexValN l.toNat

/-- An `{r, g, b}` object as produced by `hexToRgb`. -/
structure Rgb where
  r : Nat
  g : Nat
  b : Nat
deriving DecidableEq, Repr

/-- Strip the optional leading `#` (the `#?` of the color regex;
`'#'` is not a hex digit, so the match is deterministic). -/
def stripHash (cs : List Char) : List Char :=
  match cs with
  | c :: rest => if c = '#' then rest else cs
  | [] => cs

/-- The body of the color regex: exactly six hex digits, grouped in
pairs, each pair read with `parseInt(-, 16)`. -/
def sixHex (body : List Char) : Option Rgb :=
  match body with
  | [c1, c2, c3, c4, c5, c6] =>
      if isHexDigitC c1 && isHexDigitC c2 && isHexDigitC c3 &&
         isHexDigitC c4 && isHexDigitC c5 && isHexDigitC c6 then
        some ⟨hexPair c1 c2, hexPair c3 c4, hexPair c5 c6⟩
      else none
  | _ => none

/-- `ThemeManager.hexToRgb` (src/signin-script.js:281-290; identical in
`ThemeCustomizer`, src/unnamed/part_000:285-294): the regex
`/^#?([a-f\d]{2})([a-f\d]{2})([a-f\d]{2})$/i` — an optional `#`
followed by exactly six hex digits — else `null`. -/
def hexToRgb (s : String) : Option Rgb :=
  sixHex (stripHash s.toList)

/-- The digit alphabet of JS `Number.prototype.toString(16)`
(lowercase). -/
def hexDigitChar (d : Nat) : Char :=
  if d < 10 then Char.ofNat (48 + d) else Char.ofNat (87 + d)

/-- `ThemeManager.rgbToHex` (src/signin-script.js:299-304; identical in
`ThemeCustomizer`):
`"#" + ((1 << 24) + (r << 16) + (g << 8) + b).toString(16).slice(1)`.
For the components this code produces (each in `0..255`) the sum lies
in `[2^24, 2^25)`, so `toString(16)` yields exactly seven hex digits
whose first is the `1` that `slice(1)` removes; the remaining six are
rendered positionally here. -/
def rgbToHex (rgb : Rgb) : String :=
  String.mk ['#',
    hexDigitChar ((16777216 + rgb.r * 65536 + rgb.g * 256 + rgb.b) / 1048576 % 16),
    hexDigitChar ((16777216 + rgb.r * 65536 + rgb.g * 256 + rgb.b) / 65536 % 16),
    hexDigitChar ((16777216 + rgb.r * 65536 + rgb.g * 256 + rgb.b) / 4096 % 16),
    hexDigitChar ((16777216 + rgb.r * 65536 + rgb.g * 256 + rgb.b) / 256 % 16),
    hexDigitChar ((16777216 + rgb.r * 65536 + rgb.g * 256 + rgb.b) / 16 % 16),
    hexDigitChar ((16777216 + rgb.r * 65536 + rgb.g * 256 + rgb.b) % 16)]

/-- Clamp an `Int` into `0..255` (the `Math.max(0, Math.min(255, -))`
pattern) and return it as a `Nat`. -/
def clampByte (v : Int) : Nat := (max 0 (min 255 v)).toNat

/-- `ThemeManager.adjustBrightness` (src/signin-script.js:314-329):
`Math.floor(x + x*percent/100)` per component, clamped; the float
division is modelled as exact rational floor division. -/
def adjustBrightness (rgb : Rgb) (percent : Int) : Rgb :=
  ⟨clampByte (Int.fdiv ((rgb.r : Int) * (100 + percent)) 100),
   clampByte (Int.fdiv ((rgb.g : Int) * (100 + percent)) 100),
   clampByte (Int.fdiv ((rgb.b : Int) * (100 + percent)) 100)⟩

/-- A raw string stored under the theme key `"studyflow-theme"`:
either the `JSON.stringify` output of `saveTheme` (the serialized
`color` and `mode` fields) or a string that is not valid JSON. -/
inductive ThemeStored where
  | notJson (raw : String)
  | data (color : String) (mode : String)
deriving DecidableEq, Repr

/-- JS truthiness of the stored theme string (`if (savedTheme)`). -/
def ThemeStored.truthy : ThemeStored → Bool
  | .notJson raw => raw ≠ ""
  | .data _ _ => true

/-- The document state the theme code manipulates: the CSS custom
properties set by `applyColor` and whether `data-theme="dark"` is set
(the attribute is only ever set to `"dark"` or removed). -/
structure ThemeState where
  color : String
  primaryDark : String
  primaryLight : String
  primaryHover : String
  dark : Bool
deriving DecidableEq, Repr

namespace ThemeManager

/-- `ThemeManager.saveTheme` (src/signin-script.js:225-234): serializes
the computed `--primary-color` (trimmed) and
`getAttribute("data-theme") || "light"`. -/
def saveTheme (st : ThemeState) : ThemeStored :=
  .data (jsTrim st.color) (if st.dark then "dark" else "light")

/-- `ThemeManager.applyColor` (src/signin-script.js:169-194): sets
`--primary-color`, derives darker/lighter/hover shades — throwing a
`TypeError` when `hexToRgb` returned `null`, since `adjustBrightness`
then dereferences `null` — and ends with `this.saveTheme()`. -/
def applyColor (color : String) (st : ThemeState) :
    LoadOutcome (ThemeState × Option ThemeStored) :=
  let st1 := { st with color := color }
  match hexToRgb color with
  | none => .threw (st1, none)
  | some rgb =>
      let st2 := { st1 with
        primaryDark := rgbToHex (adjustBrightness rgb (-20)),
        primaryLight := rgbToHex (adjustBrightness rgb 20),
        primaryHover := rgbToHex (adjustBrightness rgb (-10)) }
      .ok (st2, some (saveTheme st2))

/-- `ThemeManager.loadSavedTheme` (src/signin-script.js:241-272).
Absent or empty stored value: the `if (savedTheme)` guard fails, state
untouched.  Non-empty invalid JSON: `JSON.parse` throws with no
try/catch.  Otherwise `applyColor(theme.color)` runs (re-saving the
store as a side effect), and `data-theme="dark"` is set only when the
saved mode is `"dark"`. -/
def loadSavedTheme (stored : Option ThemeStored) (st : ThemeState) :
    LoadOutcome (ThemeState × Option ThemeStored) :=
  match stored with
  | none => .ok (st, stored)
  | some sv =>
      if sv.truthy then
        match sv with
        | .notJson _ => .threw (st, stored)
        | .data color mode =>
            match applyColor color st with
            | .threw p => .threw p
            | .ok (st1, store1) =>
                if mode = "dark" then .ok ({ st1 with dark := true }, store1)
                else .ok (st1, store1)
      else .ok (st, stored)

end ThemeManager

/-! ### Helper lemmas -/

theorem mk_toList (s : String) : String.mk s.toList = s := rfl

theorem dropWhile_eq_self_of (p : Char → Bool) (l : List Char)
    (h : ∀ c ∈ l, p c = false) : l.dropWhile p = l := by
  cases l with
  | nil => rfl
  | cons a t => simp [List.dropWhile_cons, h a (by simp)]

theorem jsTrim_eq_self (s : String) (h : ∀ c ∈ s.toList, jsWhitespace c = false) :
    jsTrim s = s := by
  unfold jsTrim
  rw [dropWhile_eq_self_of _ _ h,
      dropWhile_eq_self_of _ _ (fun c hc => h c (by simpa using hc)),
      List.reverse_reverse, mk_toList]

theorem jsTrim_eq_empty (s : String) (h : ∀ c ∈ s.toList, jsWhitespace c = true) :
    jsTrim s = "" := by
  unfold jsTrim
  rw [List.dropWhile_eq_nil_iff.mpr h]
  rfl

theorem dropWhile_head_false (p : Char → Bool) :
    ∀ (l : List Char) (a : Char) (t : List Char), l.dropWhile p = a :: t → p a = false := by
  intro l
  induction l with
  | nil => intro a t h; simp at h
  | cons b l' ih =>
      intro a t h
      rw [List.dropWhile_cons] at h
      by_cases hb : p b = true
      · rw [if_pos hb] at h
        exact ih a t h
      · rw [if_neg hb] at h
        injection h with h1 _
        subst h1
        simpa using hb

theorem takeWhile_of_decomp (p : Char → Bool) :
    ∀ (xs : List Char) (a : Char) (ys : List Char), (∀ c ∈ xs, p c = true) → p a = false →
      (xs ++ a :: ys).takeWhile p = xs ∧ (xs ++ a :: ys).dropWhile p = a :: ys := by
  intro xs
  induction xs with
  | nil =>
      intro a ys _ ha
      constructor
      · simp [List.takeWhile_cons, ha]
      · simp [List.dropWhile_cons, ha]
  | cons x xs' ih =>
      intro a ys hall ha
      have hx : p x = true := hall x (by simp)
      have h2 := ih a ys (fun c hc => hall c (by simp [hc])) ha
      constructor
      · rw [List.cons_append, List.takeWhile_cons, if_pos hx, h2.1]
      · rw [List.cons_append, List.dropWhile_cons, if_pos hx, h2.2]

theorem interior_dot_iff (dom : List Char) :
    ((dom.drop 1).dropLast).contains '.' = true ↔
      ∃ x y : List Char, dom = x ++ '.' :: y ∧ x ≠ [] ∧ y ≠ [] := by
  constructor
  · intro h
    rw [List.elem_iff] at h
    cases dom with
    | nil => simp at h
    | cons d0 rest =>
        simp only [List.drop_succ_cons, List.drop_zero] at h
        have hrest : rest ≠ [] := by
          rintro rfl
          simp at h
        obtain ⟨u, v, huv⟩ := List.append_of_mem h
        have hsplit : rest = u ++ '.' :: (v ++ [rest.getLast hrest]) := by
          conv_lhs => rw [← List.dropLast_append_getLast hrest]
          rw [huv]
          simp
        refine ⟨d0 :: u, v ++ [rest.getLast hrest], ?_, by simp, by simp⟩
        rw [List.cons_append, ← hsplit]
  · rintro ⟨x, y, rfl, hx, hy⟩
    rw [List.elem_iff]
    cases x with
    | nil => exact absurd rfl hx
    | cons x0 xs =>
        simp only [List.cons_append, List.drop_succ_cons, List.drop_zero]
        rw [show xs ++ '.' :: y = (xs ++ ['.']) ++ y by simp]
        rw [List.dropLast_append_of_ne_nil _ hy]
        simp

theorem emailPatternTest_iff (s : String) :
    emailPatternTest s = true ↔
      ∃ lp dom : List Char,
        s.toList = lp ++ '@' :: dom ∧
        lp ≠ [] ∧
        (∀ c ∈ lp, jsWhitespace c = false ∧ c ≠ '@') ∧
        (∀ c ∈ dom, jsWhitespace c = false ∧ c ≠ '@') ∧
        ∃ x y : List Char, dom = x ++ '.' :: y ∧ x ≠ [] ∧ y ≠ [] := by
  constructor
  · intro h
    unfold emailPatternTest at h
    split at h
    · exact absurd h (by simp)
    · rename_i b dom hd
      have hb : b = '@' := by
        have := dropWhile_head_false _ _ _ _ hd
        simpa using this
      subst hb
      simp only [Bool.and_eq_true, Bool.not_eq_true', List.isEmpty_eq_false,
        List.all_eq_true] at h
      obtain ⟨⟨⟨hlp_ne, hlp_ws⟩, hdom⟩, hdot⟩ := h
      refine ⟨s.toList.takeWhile (fun c => c ≠ '@'), dom, ?_, hlp_ne, ?_, ?_, ?_⟩
      · conv_lhs => rw [← List.takeWhile_append_dropWhile (p := fun c => c ≠ '@') (l := s.toList)]
        rw [hd]
      · intro c hc
        refine ⟨hlp_ws c hc, ?_⟩
        have := List.mem_takeWhile_imp hc
        simpa using this
      · intro c hc
        have := hdom c hc
        simp only [Bool.and_eq_true, Bool.not_eq_true'] at this
        exact ⟨this.1, by simpa using this.2⟩
      · exact (interior_dot_iff dom).mp hdot
  · rintro ⟨lp, dom, hs, hlp, hlpprop, hdomprop, x, y, hxy, hx, hy⟩
    have hsplit := takeWhile_of_decomp (fun c => c ≠ '@') lp '@' dom
      (fun c hc => by simpa using (hlpprop c hc).2) (by simp)
    unfold emailPatternTest
    rw [hs]
    split
    · rename_i heq
      rw [hsplit.2] at heq
      exact absurd heq (by simp)
    · rename_i b dom' heq
      rw [hsplit.2] at heq
      injection heq with hb hdom'
      subst hb
      subst hdom'
      rw [hsplit.1]
      simp only [Bool.and_eq_true, Bool.not_eq_true', List.isEmpty_eq_false,
        List.all_eq_true]
      refine ⟨⟨⟨hlp, ?_⟩, ?_⟩, ?_⟩
      · intro c hc
        exact (hlpprop c hc).1
      · intro c hc
        exact ⟨(hdomprop c hc).1, by simp [(hdomprop c hc).2]⟩
      · exact (interior_dot_iff dom).mpr ⟨x, y, hxy, hx, hy⟩

theorem hexValN_lt (v : Nat) (h : isHexDigitN v = true) : hexValN v < 16 := by
  simp only [isHexDigitN, Bool.or_eq_true, Bool.and_eq_true, decide_eq_true_eq] at h
  unfold hexValN
  split
  · omega
  · split <;> omega

theorem hexDigitC_ne_hash (c : Char) (h : isHexDigitC c = true) : c ≠ '#' := by
  rintro rfl
  exact absurd h (by decide)

theorem hexDigitC_not_ws (c : Char) (h : isHexDigitC c = true) : jsWhitespace c = false := by
  simp only [isHexDigitC, isHexDigitN, Bool.or_eq_true, Bool.and_eq_true,
    decide_eq_true_eq] at h
  simp only [jsWhitespace, wsN, Bool.or_eq_false_iff, Bool.and_eq_false_iff,
    decide_eq_false_iff_not]
  omega

theorem hexDigit_render (c : Char) (h : isHexDigitC c = true) :
    hexDigitChar (hexValN c.toNat) = jsToLower c := by
  have hv : (48 ≤ c.toNat ∧ c.toNat ≤ 57) ∨ (97 ≤ c.toNat ∧ c.toNat ≤ 102) ∨
      (65 ≤ c.toNat ∧ c.toNat ≤ 70) := by
    simpa only [isHexDigitC, isHexDigitN, Bool.or_eq_true, Bool.and_eq_true,
      decide_eq_true_eq, or_assoc] using h
  unfold hexValN hexDigitChar jsToLower
  rcases hv with ⟨ha, hb⟩ | ⟨ha, hb⟩ | ⟨ha, hb⟩
  · rw [if_pos (by omega : c.toNat ≤ 57), if_pos (by omega : c.toNat - 48 < 10),
      if_neg (by omega : ¬ (65 ≤ c.toNat ∧ c.toNat ≤ 90)),
      show 48 + (c.toNat - 48) = c.toNat by omega]
    exact Char.ofNat_toNat c
  · rw [if_neg (by omega : ¬ c.toNat ≤ 57), if_pos (by omega : 97 ≤ c.toNat),
      if_neg (by omega : ¬ c.toNat - 87 < 10),
      if_neg (by omega : ¬ (65 ≤ c.toNat ∧ c.toNat ≤ 90)),
      show 87 + (c.toNat - 87) = c.toNat by omega]
    exact Char.ofNat_toNat c
  · rw [if_neg (by omega : ¬ c.toNat ≤ 57), if_neg (by omega : ¬ 97 ≤ c.toNat),
      if_neg (by omega : ¬ c.toNat - 55 < 10),
      if_pos (⟨by omega, by omega⟩ : 65 ≤ c.toNat ∧ c.toNat ≤ 90),
      show 87 + (c.toNat - 55) = c.toNat + 32 by omega]

theorem sixHex_some (l : List Char) (rgb : Rgb) (h : sixHex l = some rgb) :
    ∃ c1 c2 c3 c4 c5 c6, l = [c1, c2, c3, c4, c5, c6] ∧
      (∀ c ∈ l, isHexDigitC c = true) ∧
      rgb = ⟨hexPair c1 c2, hexPair c3 c4, hexPair c5 c6⟩ := by
  rcases l with _ | ⟨a, _ | ⟨b, _ | ⟨c, _ | ⟨d, _ | ⟨e, _ | ⟨f, _ | ⟨g, t⟩⟩⟩⟩⟩⟩⟩
  · simp [sixHex] at h
  · simp [sixHex] at h
  · simp [sixHex] at h
  · simp [sixHex] at h
  · simp [sixHex] at h
  · simp [sixHex] at h
  · rw [sixHex] at h
    split at h
    · rename_i hcond
      injection h with h'
      simp only [Bool.and_eq_true] at hcond
      refine ⟨a, b, c, d, e, f, rfl, ?_, h'.symm⟩
      intro x hx
      simp only [List.mem_cons, List.not_mem_nil, or_false] at hx
      rcases hx with rfl | rfl | rfl | rfl | rfl | rfl
      · exact hcond.1.1.1.1.1
      · exact hcond.1.1.1.1.2
      · exact hcond.1.1.1.2
      · exact hcond.1.1.2
      · exact hcond.1.2
      · exact hcond.2
    · exact absurd h (by simp)
  · simp [sixHex] at h

theorem sixHex_of_hex (c1 c2 c3 c4 c5 c6 : Char)
    (hhex : ∀ c ∈ [c1, c2, c3, c4, c5, c6], isHexDigitC c = true) :
    sixHex [c1, c2, c3, c4, c5, c6] =
      some ⟨hexPair c1 c2, hexPair c3 c4, hexPair c5 c6⟩ := by
  rw [sixHex]
  rw [if_pos]
  simp only [Bool.and_eq_true]
  exact ⟨⟨⟨⟨⟨hhex c1 (by simp), hhex c2 (by simp)⟩, hhex c3 (by simp)⟩,
    hhex c4 (by simp)⟩, hhex c5 (by simp)⟩, hhex c6 (by simp)⟩

theorem rgbToHex_pairs (c1 c2 c3 c4 c5 c6 : Char)
    (h1 : isHexDigitC c1 = true) (h2 : isHexDigitC c2 = true)
    (h3 : isHexDigitC c3 = true) (h4 : isHexDigitC c4 = true)
    (h5 : isHexDigitC c5 = true) (h6 : isHexDigitC c6 = true) :
    rgbToHex ⟨hexPair c1 c2, hexPair c3 c4, hexPair c5 c6⟩ =
      String.mk ['#', jsToLower c1, jsToLower c2, jsToLower c3,
                 jsToLower c4, jsToLower c5, jsToLower c6] := by
  have b1 := hexValN_lt c1.toNat h1
  have b2 := hexValN_lt c2.toNat h2
  have b3 := hexValN_lt c3.toNat h3
  have b4 := hexValN_lt c4.toNat h4
  have b5 := hexValN_lt c5.toNat h5
  have b6 := hexValN_lt c6.toNat h6
  unfold rgbToHex hexPair
  rw [show (16777216 + (16 * hexValN c1.toNat + hexValN c2.toNat) * 65536 +
        (16 * hexValN c3.toNat + hexValN c4.toNat) * 256 +
        (16 * hexValN c5.toNat + hexValN c6.toNat)) / 1048576 % 16 = hexValN c1.toNat
      by omega,
    show (16777216 + (16 * hexValN c1.toNat + hexValN c2.toNat) * 65536 +
        (16 * hexValN c3.toNat + hexValN c4.toNat) * 256 +
        (16 * hexValN c5.toNat + hexValN c6.toNat)) / 65536 % 16 = hexValN c2.toNat
      by omega,
    show (16777216 + (16 * hexValN c1.toNat + hexValN c2.toNat) * 65536 +
        (16 * hexValN c3.toNat + hexValN c4.toNat) * 256 +
        (16 * hexValN c5.toNat + hexValN c6.toNat)) / 4096 % 16 = hexValN c3.toNat
      by omega,
    show (16777216 + (16 * hexValN c1.toNat + hexValN c2.toNat) * 65536 +
        (16 * hexValN c3.toNat + hexValN c4.toNat) * 256 +
        (16 * hexValN c5.toNat + hexValN c6.toNat)) / 256 % 16 = hexValN c4.toNat
      by omega,
    show (16777216 + (16 * hexValN c1.toNat + hexValN c2.toNat) * 65536 +
        (16 * hexValN c3.toNat + hexValN c4.toNat) * 256 +
        (16 * hexValN c5.toNat + hexValN c6.toNat)) / 16 % 16 = hexValN c5.toNat
      by omega,
    show (16777216 + (16 * hexValN c1.toNat + hexValN c2.toNat) * 65536 +
        (16 * hexValN c3.toNat + hexValN c4.toNat) * 256 +
        (16 * hexValN c5.toNat + hexValN c6.toNat)) % 16 = hexValN c6.toNat
      by omega,
    hexDigit_render c1 h1, hexDigit_render c2 h2, hexDigit_render c3 h3,
    hexDigit_render c4 h4, hexDigit_render c5 h5, hexDigit_render c6 h6]

theorem stripHash_cases (cs : List Char) :
    stripHash cs = cs ∨ cs = '#' :: stripHash cs := by
  cases cs with
  | nil => exact Or.inl rfl
  | cons a rest =>
      simp only [stripHash]
      by_cases ha : a = '#'
      · rw [if_pos ha, ha]
        exact Or.inr rfl
      · rw [if_neg ha]
        exact Or.inl rfl

theorem hexToRgb_some_shape (s : String) (rgb : Rgb) (h : hexToRgb s = some rgb) :
    ∃ ds : List Char, ds.length = 6 ∧ (∀ c ∈ ds, isHexDigitC c = true) ∧
      (s.toList = ds ∨ s.toList = '#' :: ds) := by
  unfold hexToRgb at h
  obtain ⟨c1, c2, c3, c4, c5, c6, hl, hhex, _⟩ := sixHex_some _ rgb h
  refine ⟨[c1, c2, c3, c4, c5, c6], rfl, ?_, ?_⟩
  · intro c hc
    exact hhex c (by rw [hl]; exact hc)
  · rcases stripHash_cases s.toList with hcase | hcase
    · exact Or.inl (by rw [← hcase, hl])
    · exact Or.inr (by rw [hcase, hl])

theorem hexToRgb_some_chars (s : String) (rgb : Rgb) (h : hexToRgb s = some rgb) :
    ∀ c ∈ s.toList, jsWhitespace c = false := by
  unfold hexToRgb at h
  intro c hc
  cases hs : s.toList with
  | nil =>
      rw [hs] at hc
      simp at hc
  | cons a rest =>
      rw [hs] at h hc
      rw [stripHash] at h
      by_cases ha : a = '#'
      · rw [if_pos ha] at h
        obtain ⟨c1, c2, c3, c4, c5, c6, hrest, hhex, _⟩ := sixHex_some rest rgb h
        rcases List.mem_cons.mp hc with rfl | hcr
        · rw [ha]
          decide
        · exact hexDigitC_not_ws c (hhex c hcr)
      · rw [if_neg ha] at h
        obtain ⟨c1, c2, c3, c4, c5, c6, hrest, hhex, _⟩ := sixHex_some _ rgb h
        exact hexDigitC_not_ws c (hhex c hc)

namespace SocialSharingManager

theorem setAdd_mem (l : List String) (a p : String) :
    p ∈ setAdd l a ↔ p ∈ l ∨ p = a := by
  unfold setAdd
  by_cases h : a ∈ l
  · simp only [if_pos h]
    constructor
    · exact Or.inl
    · rintro (hp | rfl)
      · exact hp
      · exact h
  · simp [if_neg h]

theorem foldl_setAdd_mem (l : List String) :
    ∀ (acc : List String) (p : String), p ∈ l.foldl setAdd acc ↔ p ∈ acc ∨ p ∈ l := by
  induction l with
  | nil => simp
  | cons a t ih =>
      intro acc p
      simp only [List.foldl_cons, ih, setAdd_mem, List.mem_cons]
      tauto

theorem setFromList_mem (l : List String) (p : String) :
    p ∈ setFromList l ↔ p ∈ l := by
  unfold setFromList
  simp [foldl_setAdd_mem]

theorem unlock_shareCount (st : ShareState) :
    (unlockChampionStatus st).shareCount = st.shareCount := by
  unfold unlockChampionStatus
  split <;> rfl

theorem unlock_sharedPlatforms (st : ShareState) :
    (unlockChampionStatus st).sharedPlatforms = st.sharedPlatforms := by
  unfold unlockChampionStatus
  split <;> rfl

theorem unlock_championHidden (st : ShareState) :
    (unlockChampionStatus st).championHidden = false := by
  unfold unlockChampionStatus
  by_cases h : st.championHidden = true
  · rw [if_pos h]
  · rw [if_neg h]
    simpa using h

theorem registerShare_shareCount (p : String) (st : ShareState) (store : Option ProgressStored) :
    (registerShare p st store).state.shareCount =
      if p ∈ st.sharedPlatforms then st.shareCount else st.shareCount + 1 := by
  unfold registerShare
  by_cases h : p ∈ st.sharedPlatforms
  · simp [h]
  · simp only [if_neg h, if_pos, if_neg]
    split
    · rw [unlock_shareCount]
    · rfl

theorem registerShare_sharedPlatforms (p : String) (st : ShareState)
    (store : Option ProgressStored) :
    (registerShare p st store).state.sharedPlatforms =
      if p ∈ st.sharedPlatforms then st.sharedPlatforms else st.sharedPlatforms ++ [p] := by
  unfold registerShare
  by_cases h : p ∈ st.sharedPlatforms
  · simp [h]
  · simp only [if_neg h]
    split
    · rw [unlock_sharedPlatforms]
    · rfl

theorem loadProgress_data (count : Int) (platforms : List String) (st : ShareState) :
    ∃ st', loadProgress (some (.data count platforms)) st = .ok st' ∧
      st'.shareCount = (if count = 0 then 0 else count) ∧
      st'.sharedPlatforms = setFromList platforms ∧
      (3 ≤ st'.shareCount → st'.championHidden = false) := by
  unfold loadProgress
  simp only [ProgressStored.truthy, if_true]
  by_cases h3 : (3 : Int) ≤ (if count = 0 then (0 : Int) else count)
  · refine ⟨_, by rw [if_pos h3], ?_, ?_, ?_⟩
    · rw [unlock_shareCount]
    · rw [unlock_sharedPlatforms]
    · intro _
      exact unlock_championHidden _
  · refine ⟨_, by rw [if_neg h3], rfl, rfl, ?_⟩
    intro h3'
    exact absurd h3' h3

end SocialSharingManager

namespace TicketManager

theorem validateName_fail (f : TicketForm) (h : (validateName f).1 = false) :
    (validateName f).2 ≠ [] := by
  by_cases h1 : jsTrim f.name = ""
  · simp [validateName, h1]
  · by_cases h2 : (jsTrim f.name).length < 2
    · simp [validateName, h1, h2]
    · simp [validateName, h1, h2] at h

theorem validateEmail_fail (f : TicketForm) (h : (validateEmail f).1 = false) :
    (validateEmail f).2 ≠ [] := by
  by_cases h1 : jsTrim f.email = ""
  · simp [validateEmail, h1]
  · by_cases h2 : emailPatternTest (jsTrim f.email) = true
    · simp [validateEmail, h1, h2] at h
    · simp [validateEmail, h1, h2]

theorem validateCategory_fail (f : TicketForm) (h : (validateCategory f).1 = false) :
    (validateCategory f).2 ≠ [] := by
  by_cases h1 : f.category = ""
  · simp [validateCategory, h1]
  · simp [validateCategory, h1] at h

theorem validatePriority_fail (f : TicketForm) (h : (validatePriority f).1 = false) :
    (validatePriority f).2 ≠ [] := by
  by_cases h1 : f.priority = ""
  · simp [validatePriority, h1]
  · simp [validatePriority, h1] at h

theorem validateSubject_fail (f : TicketForm) (h : (validateSubject f).1 = false) :
    (validateSubject f).2 ≠ [] := by
  by_cases h1 : jsTrim f.subject = ""
  · simp [validateSubject, h1]
  · by_cases h2 : (jsTrim f.subject).length < 5
    · simp [validateSubject, h1, h2]
    · simp [validateSubject, h1, h2] at h

theorem validateDescription_fail (f : TicketForm) (h : (validateDescription f).1 = false) :
    (validateDescription f).2 ≠ [] := by
  by_cases h1 : jsTrim f.description = ""
  · simp [validateDescription, h1]
  · by_cases h2 : (jsTrim f.description).length < 20
    · simp [validateDescription, h1, h2]
    · by_cases h3 : 1000 < (jsTrim f.description).length
      · simp [validateDescription, h1, h2, h3]
      · simp [validateDescription, h1, h2, h3] at h

theorem checks_fail_nonempty (f : TicketForm) :
    ∀ chk ∈ checks f, chk.1 = false → chk.2 ≠ [] := by
  intro chk hchk hfail
  simp only [checks, List.mem_cons, List.not_mem_nil, or_false] at hchk
  rcases hchk with rfl | rfl | rfl | rfl | rfl | rfl
  · exact validateName_fail f hfail
  · exact validateEmail_fail f hfail
  · exact validateCategory_fail f hfail
  · exact validatePriority_fail f hfail
  · exact validateSubject_fail f hfail
  · exact validateDescription_fail f hfail

theorem handleSubmit_marks (f : TicketForm) (opR : Bool) (tn : String) :
    (handleSubmit f opR tn).marks = ((checks f).map Prod.snd).flatten := by
  simp only [handleSubmit]
  split
  · rfl
  · split <;> rfl

theorem handleSubmit_invalid (f : TicketForm) (opR : Bool) (tn : String)
    (h : (checks f).all Prod.fst = false) :
    (handleSubmit f opR tn).invoked = false ∧
    (handleSubmit f opR tn).toasts = [⟨"Please fix the errors in the form", .error, 4000⟩] ∧
    (handleSubmit f opR tn).formAfter = f ∧
    (handleSubmit f opR tn).loadingAfter = false := by
  unfold handleSubmit
  simp [h]

theorem handleSubmit_valid_fail (f : TicketForm) (tn : String)
    (h : (checks f).all Prod.fst = true) :
    (handleSubmit f true tn).invoked = true ∧
    (handleSubmit f true tn).toasts =
      [⟨"Failed to submit ticket. Please try again or email us directly.", .error, 4000⟩] ∧
    (handleSubmit f true tn).formAfter = f ∧
    (handleSubmit f true tn).loadingAfter = false := by
  unfold handleSubmit
  simp [h]

end TicketManager

namespace DonationManager

theorem handleSubmit_required (d : DonationForm) (opR : Bool)
    (h : d.donorName = "" ∨ d.donorEmail = "") :
    handleSubmit d opR =
      ⟨[⟨"Please fill in all required fields", .error, 4000⟩], false, d, false⟩ := by
  unfold handleSubmit
  rw [if_pos h]

theorem handleSubmit_proceeds (d : DonationForm) (opR : Bool)
    (h1 : d.donorName ≠ "") (h2 : d.donorEmail ≠ "")
    (h3 : (finalAmount d).falsy = false) (h4 : (finalAmount d).leZero = false) :
    handleSubmit d opR =
      if opR then
        ⟨[⟨"Payment failed. Please try again.", .error, 4000⟩], true, d, false⟩
      else
        ⟨[⟨"Thank you for your " ++ d.selectedFrequency ++ " donation of $"
            ++ (finalAmount d).text ++ "! You're changing lives. 💙", .success, 6000⟩],
          true, resetForm d, false⟩ := by
  unfold handleSubmit
  rw [if_neg (by tauto : ¬ (d.donorName = "" ∨ d.donorEmail = ""))]
  simp [h3, h4]

end DonationManager

/-! ### Claim theorems -/

/-- C1 (counterexample): the claim says a malformed stored string is
treated as absent and "never surfaces an error".  In the code,
`JSON.parse` is called with no try/catch in both
`SocialSharingManager.loadProgress` and `ThemeManager.loadSavedTheme`,
so on the concrete malformed stored string `"corrupt"` both loads let
the exception escape (`LoadOutcome.threw`). -/
theorem c1_load_malformed_counterexample :
    SocialSharingManager.loadProgress (some (.notJson "corrupt")) initialShareState =
      .threw initialShareState ∧
    ThemeManager.loadSavedTheme (some (.notJson "corrupt")) ⟨"#0066cc", "", "", "", false⟩ =
      .threw (⟨"#0066cc", "", "", "", false⟩, some (.notJson "corrupt")) := by
  constructor
  · rfl
  · rfl

/-- C1 (amended): on an absent value — or an empty stored string, which
fails the same truthiness guard — `loadProgress` and `loadSavedTheme`
return with the in-memory state untouched and no error; on a non-empty
stored string that is not valid JSON they throw, the state being left
at its prior value only because the exception fires before any
assignment. -/
theorem c1_load_malformed_amended (st : ShareState) (t : ThemeState) (raw : String) :
    (SocialSharingManager.loadProgress none st = .ok st) ∧
    (SocialSharingManager.loadProgress (some (.notJson "")) st = .ok st) ∧
    (raw ≠ "" → SocialSharingManager.loadProgress (some (.notJson raw)) st = .threw st) ∧
    (ThemeManager.loadSavedTheme none t = .ok (t, none)) ∧
    (ThemeManager.loadSavedTheme (some (.notJson "")) t = .ok (t, some (.notJson ""))) ∧
    (raw ≠ "" →
      ThemeManager.loadSavedTheme (some (.notJson raw)) t = .threw (t, some (.notJson raw))) := by
  refine ⟨rfl, rfl, ?_, rfl, rfl, ?_⟩
  · intro hraw
    unfold SocialSharingManager.loadProgress
    simp [ProgressStored.truthy, hraw]
  · intro hraw
    unfold ThemeManager.loadSavedTheme
    simp [ThemeStored.truthy, hraw]

/-- C1 (witness): the amended theorem applied at concrete inputs. -/
theorem c1_load_malformed_witness :
    SocialSharingManager.loadProgress none initialShareState = .ok initialShareState ∧
    SocialSharingManager.loadProgress (some (.notJson "oops")) initialShareState =
      .threw initialShareState ∧
    ThemeManager.loadSavedTheme (some (.notJson "oops")) ⟨"#0066cc", "", "", "", false⟩ =
      .threw (⟨"#0066cc", "", "", "", false⟩, some (.notJson "oops")) := by
  have h := c1_load_malformed_amended initialShareState ⟨"#0066cc", "", "", "", false⟩ "oops"
  exact ⟨h.1, h.2.2.1 (by decide), h.2.2.2.2.2 (by decide)⟩

/-- C2 (code bug): from a fresh session (count 0, empty platform set,
champion section hidden), registering the 3rd distinct channel does
*not* unlock the champion section — `registerShare` calls
`unlockChampionStatus` only when `shareCount >= 3` and the section is
already *visible* (`!classList.contains("hidden")`), an inverted guard
that makes the in-session unlock unreachable.  Only `loadProgress`
unlocks: reloading the very progress just saved does flip the section
to visible.  The spec ("registering a 3rd distinct channel transitions
share-progress from locked to unlocked") describes the evident intent;
the call-site guard contradicts `unlockChampionStatus`'s own body. -/
theorem c2_champion_unlock_code_bug :
    (let r1 := SocialSharingManager.registerShare "twitter" initialShareState none
     let r2 := SocialSharingManager.registerShare "facebook" r1.state r1.store
     let r3 := SocialSharingManager.registerShare "linkedin" r2.state r2.store
     r3.state.shareCount = 3 ∧
     r3.state.championHidden = true ∧
     SocialSharingManager.loadProgress r3.store initialShareState =
       .ok ⟨3, ["twitter", "facebook", "linkedin"], false⟩) := by
  refine ⟨by decide, by decide, by decide⟩

/-- C3: the save/load round trip.  Share progress: `saveProgress`
followed by `loadProgress` restores the same share count and the same
set of shared platforms.  Theme: `saveTheme` followed by
`loadSavedTheme` restores the same color and mode, for any state whose
color parses as a hex color (the only colors the theme code ever
writes; on any other color `applyColor` would throw). -/
theorem c3_save_load_roundtrip :
    (∀ st stPre : ShareState, ∃ st' : ShareState,
        SocialSharingManager.loadProgress
          (some (SocialSharingManager.saveProgress st)) stPre = .ok st' ∧
        st'.shareCount = st.shareCount ∧
        (∀ p, p ∈ st'.sharedPlatforms ↔ p ∈ st.sharedPlatforms)) ∧
    (∀ t : ThemeState, (∃ rgb, hexToRgb t.color = some rgb) →
        ∃ (t' : ThemeState) (store' : Option ThemeStored),
          ThemeManager.loadSavedTheme (some (ThemeManager.saveTheme t)) t = .ok (t', store') ∧
          t'.color = t.color ∧ t'.dark = t.dark) := by
  constructor
  · intro st stPre
    obtain ⟨st', hload, hcount, hplat, _⟩ :=
      SocialSharingManager.loadProgress_data st.shareCount st.sharedPlatforms stPre
    refine ⟨st', hload, ?_, ?_⟩
    · rw [hcount]
      by_cases h : st.shareCount = 0
      · rw [if_pos h, h]
      · rw [if_neg h]
    · intro p
      rw [hplat, SocialSharingManager.setFromList_mem]
  · rintro t ⟨rgb, hrgb⟩
    have htrim : jsTrim t.color = t.color :=
      jsTrim_eq_self _ (hexToRgb_some_chars _ _ hrgb)
    unfold ThemeManager.loadSavedTheme ThemeManager.saveTheme
    simp only [ThemeStored.truthy, if_true, htrim]
    unfold ThemeManager.applyColor
    by_cases hd : t.dark = true
    · refine ⟨⟨t.color, rgbToHex (adjustBrightness rgb (-20)),
        rgbToHex (adjustBrightness rgb 20), rgbToHex (adjustBrightness rgb (-10)), true⟩,
        some (ThemeManager.saveTheme ⟨t.color, rgbToHex (adjustBrightness rgb (-20)),
          rgbToHex (adjustBrightness rgb 20), rgbToHex (adjustBrightness rgb (-10)), t.dark⟩),
        ?_, rfl, hd.symm⟩
      simp [hrgb, hd]
    · have hd' : t.dark = false := by simpa using hd
      refine ⟨⟨t.color, rgbToHex (adjustBrightness rgb (-20)),
        rgbToHex (adjustBrightness rgb 20), rgbToHex (adjustBrightness rgb (-10)), t.dark⟩,
        some (ThemeManager.saveTheme ⟨t.color, rgbToHex (adjustBrightness rgb (-20)),
          rgbToHex (adjustBrightness rgb 20), rgbToHex (adjustBrightness rgb (-10)), t.dark⟩),
        ?_, rfl, rfl⟩
      simp [hrgb, hd']

/-- C3 (witness): the round trip evaluated at a concrete share state
and a concrete dark theme. -/
theorem c3_save_load_roundtrip_witness :
    (∃ st' : ShareState,
        SocialSharingManager.loadProgress
          (some (SocialSharingManager.saveProgress ⟨2, ["twitter", "facebook"], true⟩))
          ⟨2, ["twitter", "facebook"], true⟩ = .ok st' ∧
        st'.shareCount = 2 ∧
        (∀ p, p ∈ st'.sharedPlatforms ↔ p ∈ ["twitter", "facebook"])) ∧
    (∃ (t' : ThemeState) (store' : Option ThemeStored),
        ThemeManager.loadSavedTheme
          (some (ThemeManager.saveTheme ⟨"#0066cc", "", "", "", true⟩))
          ⟨"#0066cc", "", "", "", true⟩ = .ok (t', store') ∧
        t'.color = "#0066cc" ∧ t'.dark = true) := by
  exact ⟨c3_save_load_roundtrip.1 ⟨2, ["twitter", "facebook"], true⟩ _,
    c3_save_load_roundtrip.2 ⟨"#0066cc", "", "", "", true⟩ ⟨⟨0, 102, 204⟩, by rfl⟩⟩

/-- C4 (counterexample): a donation snapshot with a non-empty but
invalid-format email (by the repo's own email validator) *is* submitted
to the external operation — `DonationManager.handleSubmit` checks only
that name and email are non-empty, never the format. -/
theorem c4_invalid_email_submitted_counterexample :
    (DonationManager.handleSubmit ⟨"Jane", "not-an-email", none, some 25, "monthly"⟩
      false).invoked = true ∧
    (FormValidator.validateEmail "not-an-email").isValid = false := by
  constructor
  · rfl
  · rfl

/-- C4 (amended): for the ticket form, any snapshot with a failing
validator marks every failing field, emits exactly the one aggregate
error toast, preserves the field values and never invokes the external
operation.  The donation form blocks submission only when donor name
or email is the empty string (one toast, no field marking) or when no
positive amount is chosen; whenever name and email are non-empty and
the amount passes, the external operation is invoked — an
invalid-format email does not block it. -/
theorem c4_invalid_blocks_submission_amended :
    (∀ (f : TicketForm) (opR : Bool) (tn : String),
        (TicketManager.checks f).all Prod.fst = false →
        (TicketManager.handleSubmit f opR tn).invoked = false ∧
        (TicketManager.handleSubmit f opR tn).toasts =
          [⟨"Please fix the errors in the form", .error, 4000⟩] ∧
        (TicketManager.handleSubmit f opR tn).formAfter = f ∧
        (∀ chk ∈ TicketManager.checks f, chk.1 = false →
          chk.2 ≠ [] ∧ ∀ m ∈ chk.2, m ∈ (TicketManager.handleSubmit f opR tn).marks)) ∧
    (∀ (d : DonationForm) (opR : Bool),
        (d.donorName = "" ∨ d.donorEmail = "") →
        DonationManager.handleSubmit d opR =
          ⟨[⟨"Please fill in all required fields", .error, 4000⟩], false, d, false⟩) ∧
    (∀ (d : DonationForm) (opR : Bool),
        d.donorName ≠ "" → d.donorEmail ≠ "" →
        (DonationManager.finalAmount d).falsy = false →
        (DonationManager.finalAmount d).leZero = false →
        (DonationManager.handleSubmit d opR).invoked = true) := by
  refine ⟨?_, ?_, ?_⟩
  · intro f opR tn h
    obtain ⟨hi, ht, hf, _⟩ := TicketManager.handleSubmit_invalid f opR tn h
    refine ⟨hi, ht, hf, ?_⟩
    intro chk hchk hfail
    refine ⟨TicketManager.checks_fail_nonempty f chk hchk hfail, ?_⟩
    intro m hm
    rw [TicketManager.handleSubmit_marks]
    exact List.mem_flatten.mpr ⟨chk.2, List.mem_map_of_mem Prod.snd hchk, hm⟩
  · exact DonationManager.handleSubmit_required
  · intro d opR h1 h2 h3 h4
    rw [DonationManager.handleSubmit_proceeds d opR h1 h2 h3 h4]
    by_cases hop : opR = true
    · rw [if_pos hop]
    · rw [if_neg hop]

/-- C4 (witness): the amended theorem at the spec's own scenarios — an
invalid ticket form, a donation with empty fields, and the
invalid-email donation that goes through. -/
theorem c4_invalid_blocks_submission_witness :
    (TicketManager.handleSubmit ⟨"A", "bad", "", "", "", "", false⟩ false "SF-1").invoked
      = false ∧
    DonationManager.handleSubmit ⟨"", "", none, none, "monthly"⟩ false =
      ⟨[⟨"Please fill in all required fields", .error, 4000⟩], false,
        ⟨"", "", none, none, "monthly"⟩, false⟩ ∧
    (DonationManager.handleSubmit ⟨"Jane", "not-an-email@", none, some 25, "monthly"⟩
      false).invoked = true :=
  ⟨(c4_invalid_blocks_submission_amended.1 _ false "SF-1" (by decide)).1,
   c4_invalid_blocks_submission_amended.2.1 _ false (Or.inl rfl),
   c4_invalid_blocks_submission_amended.2.2 _ false (by decide) (by decide)
     (by decide) (by decide)⟩

/-- C5 (counterexample): the donation form *does* short-circuit — with
donor name and email empty *and* no amount selected, only the
required-fields toast is emitted; the amount check (which would also
fail, as the second conjunct shows) is never reached. -/
theorem c5_no_short_circuit_counterexample :
    (DonationManager.handleSubmit ⟨"", "", none, none, "monthly"⟩ false).toasts =
      [⟨"Please fill in all required fields", .error, 4000⟩] ∧
    (DonationManager.finalAmount ⟨"", "", none, none, "monthly"⟩).falsy = true := by
  constructor
  · rfl
  · rfl

/-- C5 (amended): on ticket submit all six validators execute in
declared order and the collected marks are exactly their concatenated
outputs, so every failing field receives its own error regardless of
earlier failures.  The donation form does not follow this policy: its
submit returns at the first failing aggregate check, emitting only the
required-fields toast. -/
theorem c5_no_short_circuit_amended :
    (∀ (f : TicketForm) (opR : Bool) (tn : String),
        (TicketManager.handleSubmit f opR tn).marks =
          ((TicketManager.checks f).map Prod.snd).flatten ∧
        (∀ chk ∈ TicketManager.checks f, chk.1 = false →
          chk.2 ≠ [] ∧ ∀ m ∈ chk.2, m ∈ (TicketManager.handleSubmit f opR tn).marks)) ∧
    (∀ (d : DonationForm) (opR : Bool), d.donorName = "" ∨ d.donorEmail = "" →
        (DonationManager.handleSubmit d opR).toasts =
          [⟨"Please fill in all required fields", .error, 4000⟩]) := by
  constructor
  · intro f opR tn
    refine ⟨TicketManager.handleSubmit_marks f opR tn, ?_⟩
    intro chk hchk hfail
    refine ⟨TicketManager.checks_fail_nonempty f chk hchk hfail, ?_⟩
    intro m hm
    rw [TicketManager.handleSubmit_marks]
    exact List.mem_flatten.mpr ⟨chk.2, List.mem_map_of_mem Prod.snd hchk, hm⟩
  · intro d opR h
    rw [DonationManager.handleSubmit_required d opR h]

/-- C5 (witness): the amended theorem at the spec's three-error ticket
scenario and an empty donation form. -/
theorem c5_no_short_circuit_witness :
    (TicketManager.handleSubmit ⟨"A", "bad", "tech", "low", "", "long enough description here", false⟩
        false "SF-1").marks =
      ((TicketManager.checks
        ⟨"A", "bad", "tech", "low", "", "long enough description here", false⟩).map
          Prod.snd).flatten ∧
    (DonationManager.handleSubmit ⟨"", "x@y.zw", none, none, "monthly"⟩ false).toasts =
      [⟨"Please fill in all required fields", .error, 4000⟩] :=
  ⟨(c5_no_short_circuit_amended.1 _ false "SF-1").1,
   c5_no_short_circuit_amended.2 _ false (Or.inl rfl)⟩

/-- C7: `registerShare` invariants.  A platform already in the set:
complete no-op on state and store, one informational (not error)
toast.  One call raises the count by at most 1 and never lowers it;
two calls with the same platform still raise it by at most 1. -/
theorem c7_register_share_invariants (p : String) (st : ShareState)
    (store : Option ProgressStored) :
    (p ∈ st.sharedPlatforms →
      SocialSharingManager.registerShare p st store =
        ⟨st, store, [⟨"You already shared on this platform!", .info, 4000⟩]⟩) ∧
    st.shareCount ≤ (SocialSharingManager.registerShare p st store).state.shareCount ∧
    (SocialSharingManager.registerShare p st store).state.shareCount ≤ st.shareCount + 1 ∧
    (SocialSharingManager.registerShare p
        ((SocialSharingManager.registerShare p st store).state)
        ((SocialSharingManager.registerShare p st store).store)).state.shareCount ≤
      st.shareCount + 1 := by
  refine ⟨?_, ?_, ?_, ?_⟩
  · intro h
    unfold SocialSharingManager.registerShare
    rw [if_pos h]
  · rw [SocialSharingManager.registerShare_shareCount]
    split <;> omega
  · rw [SocialSharingManager.registerShare_shareCount]
    split <;> omega
  · rw [SocialSharingManager.registerShare_shareCount,
      SocialSharingManager.registerShare_shareCount,
      SocialSharingManager.registerShare_sharedPlatforms]
    by_cases h : p ∈ st.sharedPlatforms
    · simp only [if_pos h]
      omega
    · simp only [if_neg h, List.mem_append, List.mem_singleton, or_true, if_pos]
      omega

/-- C7 (witness): the invariants applied at a concrete state that
already contains the platform. -/
theorem c7_register_share_witness :
    SocialSharingManager.registerShare "twitter" ⟨1, ["twitter"], true⟩ none =
      ⟨⟨1, ["twitter"], true⟩, none,
        [⟨"You already shared on this platform!", .info, 4000⟩]⟩ ∧
    (SocialSharingManager.registerShare "facebook" ⟨1, ["twitter"], true⟩ none).state.shareCount
      ≤ 2 :=
  ⟨(c7_register_share_invariants "twitter" ⟨1, ["twitter"], true⟩ none).1 (by decide),
   (c7_register_share_invariants "facebook" ⟨1, ["twitter"], true⟩ none).2.2.1⟩

/-- C8: when the external operation rejects, both pipelines emit the
generic retry error toast, return the submit control to idle
(`loadingAfter = false`) and leave every field value untouched
(`formAfter` is the submitted form). -/
theorem c8_failure_preserves_input :
    (∀ (f : TicketForm) (tn : String),
        (TicketManager.checks f).all Prod.fst = true →
        (TicketManager.handleSubmit f true tn).invoked = true ∧
        (TicketManager.handleSubmit f true tn).toasts =
          [⟨"Failed to submit ticket. Please try again or email us directly.", .error, 4000⟩] ∧
        (TicketManager.handleSubmit f true tn).formAfter = f ∧
        (TicketManager.handleSubmit f true tn).loadingAfter = false) ∧
    (∀ d : DonationForm,
        d.donorName ≠ "" → d.donorEmail ≠ "" →
        (DonationManager.finalAmount d).falsy = false →
        (DonationManager.finalAmount d).leZero = false →
        DonationManager.handleSubmit d true =
          ⟨[⟨"Payment failed. Please try again.", .error, 4000⟩], true, d, false⟩) := by
  constructor
  · exact fun f tn h => TicketManager.handleSubmit_valid_fail f tn h
  · intro d h1 h2 h3 h4
    rw [DonationManager.handleSubmit_proceeds d true h1 h2 h3 h4]
    rfl

/-- C8 (witness): a fully valid ticket form and a valid donation form,
submitted against a rejecting external operation. -/
theorem c8_failure_preserves_input_witness :
    (TicketManager.handleSubmit
        ⟨"Jane Doe", "jane@example.com", "technical", "low", "Cannot log in",
          "I cannot log into my account since yesterday evening.", false⟩
        true "SF-123456-001").formAfter =
      ⟨"Jane Doe", "jane@example.com", "technical", "low", "Cannot log in",
        "I cannot log into my account since yesterday evening.", false⟩ ∧
    DonationManager.handleSubmit ⟨"Jane", "jane@x.com", none, some 25, "monthly"⟩ true =
      ⟨[⟨"Payment failed. Please try again.", .error, 4000⟩], true,
        ⟨"Jane", "jane@x.com", none, some 25, "monthly"⟩, false⟩ :=
  ⟨(c8_failure_preserves_input.1 _ "SF-123456-001" (by decide)).2.2.1,
   c8_failure_preserves_input.2 _ (by decide) (by decide) (by decide) (by decide)⟩

/-- C6 (counterexample): `"a@b."` has no whitespace, splits as
local-part `"a"` `@` domain `"b."`, and has a dot after the `@` — yet
`validateEmail` rejects it with the format message, because the regex
`[^\s@]+\.[^\s@]+` demands a non-empty piece after a dot.  So the
claim's general rule ("any input of shape local-part@domain with at
least one dot after the @ is valid") is false. -/
theorem c6_validate_email_counterexample :
    FormValidator.validateEmail "a@b." = ⟨false, "Please enter a valid email address"⟩ ∧
    "a@b.".toList = ['a'] ++ '@' :: ['b', '.'] ∧
    (∀ c ∈ "a@b.".toList, jsWhitespace c = false) ∧
    '.' ∈ ['b', '.'] := by
  refine ⟨rfl, rfl, by decide, by decide⟩

/-- C6 (amended): the concrete cases hold as claimed — empty and
whitespace-only inputs fail with the required message, `"a@b.co"` is
valid, `"not-an-email"` fails with the format message, for both
`FormValidator.validateEmail` and `TicketManager.validateEmail`.  The
general rule is: an input matches the email pattern iff it splits as
`local ++ "@" ++ domain` with both parts non-empty and free of
whitespace and `'@'`, and the domain contains a dot that is neither
its first nor its last character. -/
theorem c6_validate_email_amended :
    FormValidator.validateEmail "" = ⟨false, "Email is required"⟩ ∧
    (∀ s : String, s.toList.all jsWhitespace = true →
        FormValidator.validateEmail s = ⟨false, "Email is required"⟩) ∧
    FormValidator.validateEmail "a@b.co" = ⟨true, ""⟩ ∧
    FormValidator.validateEmail "not-an-email" =
      ⟨false, "Please enter a valid email address"⟩ ∧
    TicketManager.validateEmail ⟨"", "a@b.co", "", "", "", "", false⟩ = (true, []) ∧
    TicketManager.validateEmail ⟨"", "not-an-email", "", "", "", "", false⟩ =
      (false, [⟨"ticketEmail", "ticketEmailError", "Please enter a valid email address"⟩]) ∧
    TicketManager.validateEmail ⟨"", "", "", "", "", "", false⟩ =
      (false, [⟨"ticketEmail", "ticketEmailError", "Please enter your email"⟩]) ∧
    (∀ s : String, emailPatternTest s = true ↔
        ∃ lp dom : List Char,
          s.toList = lp ++ '@' :: dom ∧
          lp ≠ [] ∧
          (∀ c ∈ lp, jsWhitespace c = false ∧ c ≠ '@') ∧
          (∀ c ∈ dom, jsWhitespace c = false ∧ c ≠ '@') ∧
          ∃ x y : List Char, dom = x ++ '.' :: y ∧ x ≠ [] ∧ y ≠ []) := by
  refine ⟨rfl, ?_, rfl, rfl, rfl, rfl, rfl, emailPatternTest_iff⟩
  intro s hws
  unfold FormValidator.validateEmail
  rw [if_pos (Or.inr (jsTrim_eq_empty s (List.all_eq_true.mp hws)))]

/-- C6 (witness): the amended theorem applied to a whitespace-only
input and, through the characterization, to `"x@y.zw"`. -/
theorem c6_validate_email_witness :
    FormValidator.validateEmail " \t " = ⟨false, "Email is required"⟩ ∧
    emailPatternTest "x@y.zw" = true :=
  ⟨c6_validate_email_amended.2.1 " \t " (by decide),
   (c6_validate_email_amended.2.2.2.2.2.2.2 "x@y.zw").mpr
     ⟨['x'], ['y', '.', 'z', 'w'], by decide, by decide, by decide, by decide,
       ['y'], ['z', 'w'], by decide, by decide, by decide⟩⟩

/-- C9 (counterexample): `"123\t4567890"` contains a tab — a character
outside digits, space, parentheses and hyphen — so the claim calls it
invalid; but the code's pattern class is `\s` (any whitespace), so
`validatePhone` accepts it. -/
theorem c9_validate_phone_counterexample :
    FormValidator.validatePhone "123\t4567890" = ⟨true, ""⟩ ∧
    '\t' ∈ "123\t4567890".toList ∧
    isDigitC '\t' = false ∧ '\t' ≠ ' ' ∧ '\t' ≠ '(' ∧ '\t' ≠ ')' ∧ '\t' ≠ '-' := by
  refine ⟨rfl, by decide, by decide, by decide, by decide, by decide, by decide⟩

/-- C9 (amended): an empty or whitespace-only input fails with the
required message; otherwise `validatePhone` returns invalid exactly
when fewer than 10 digits remain after stripping non-digits, or when
the raw value contains a character outside digits, *whitespace* (the
class `\s`, not just the space character), parentheses and hyphen. -/
theorem c9_validate_phone_amended :
    (∀ s : String, jsTrim s = "" →
        FormValidator.validatePhone s = ⟨false, "Phone number is required"⟩) ∧
    (∀ s : String, jsTrim s ≠ "" →
        ((FormValidator.validatePhone s).isValid = false ↔
          (s.toList.filter isDigitC).length < 10 ∨
          ∃ c ∈ s.toList, isDigitC c = false ∧ jsWhitespace c = false ∧
            c ≠ '-' ∧ c ≠ '(' ∧ c ≠ ')')) := by
  constructor
  · intro s h
    unfold FormValidator.validatePhone
    rw [if_pos (Or.inr h)]
  · intro s h
    have hs : s ≠ "" := by
      intro he
      subst he
      exact h rfl
    have hie : s.isEmpty = false := by
      rw [Bool.eq_false_iff]
      intro hh
      exact hs ((String.isEmpty_iff s).mp hh)
    unfold FormValidator.validatePhone
    rw [if_neg (by tauto : ¬ (s = "" ∨ jsTrim s = ""))]
    by_cases hlen : (s.toList.filter isDigitC).length < 10
    · rw [if_pos hlen]
      exact ⟨fun _ => Or.inl hlen, fun _ => rfl⟩
    · rw [if_neg hlen]
      by_cases hpat : phonePatternTest s = true
      · rw [if_neg (by simp [hpat])]
        constructor
        · intro hfalse
          exact absurd hfalse (by simp)
        · intro hr
          exfalso
          rcases hr with hl | ⟨c, hc, b1, b2, b3, b4, b5⟩
          · exact hlen hl
          · have hall : ∀ c ∈ s.toList,
                (isDigitC c || jsWhitespace c || c = '-' || c = '(' || c = ')') = true := by
              have hp := hpat
              simp only [phonePatternTest, hie, Bool.not_false, Bool.true_and,
                List.all_eq_true] at hp
              exact hp
            have hcc := hall c hc
            simp [b1, b2, b3, b4, b5] at hcc
      · rw [if_pos (by simp [hpat])]
        refine ⟨fun _ => ?_, fun _ => rfl⟩
        right
        have hall : s.toList.all
            (fun c => isDigitC c || jsWhitespace c || c = '-' || c = '(' || c = ')') = false := by
          have hp : phonePatternTest s = false := by
            rw [Bool.eq_false_iff]
            exact hpat
          simpa only [phonePatternTest, hie, Bool.not_false, Bool.true_and] using hp
        obtain ⟨c, hc, hnc⟩ : ∃ c ∈ s.toList,
            ¬ (isDigitC c || jsWhitespace c || c = '-' || c = '(' || c = ')') = true := by
          by_contra hcon
          push_neg at hcon
          rw [List.all_eq_true.mpr hcon] at hall
          cases hall
        simp only [Bool.or_eq_true, decide_eq_true_eq, not_or, Bool.not_eq_true] at hnc
        obtain ⟨⟨⟨⟨b1, b2⟩, b3⟩, b4⟩, b5⟩ := hnc
        exact ⟨c, hc, b1, b2, b3, b4, b5⟩

/-- C9 (witness): the amended theorem applied to a whitespace-only
input and to two concrete phones, one valid and one with a letter. -/
theorem c9_validate_phone_witness :
    FormValidator.validatePhone "  " = ⟨false, "Phone number is required"⟩ ∧
    ((FormValidator.validatePhone "(123) 456-7890").isValid = false ↔
      (("(123) 456-7890" : String).toList.filter isDigitC).length < 10 ∨
      ∃ c ∈ ("(123) 456-7890" : String).toList, isDigitC c = false ∧
        jsWhitespace c = false ∧ c ≠ '-' ∧ c ≠ '(' ∧ c ≠ ')') :=
  ⟨c9_validate_phone_amended.1 "  " (by decide),
   c9_validate_phone_amended.2 "(123) 456-7890" (by decide)⟩

/-- C10: the hex color round trip.  Any string that is an optional `#`
followed by exactly six hex digits parses with `hexToRgb`, and
re-rendering with `rgbToHex` yields `#` followed by those six digits
lowercased; and every string *not* of that shape (in particular
3-digit shorthand) is mapped by `hexToRgb` to `null`. -/
theorem c10_hex_roundtrip :
    (∀ (s : String) (ds : List Char), ds.length = 6 →
        (∀ c ∈ ds, isHexDigitC c = true) →
        (s.toList = ds ∨ s.toList = '#' :: ds) →
        ∃ rgb, hexToRgb s = some rgb ∧
          rgbToHex rgb = String.mk ('#' :: ds.map jsToLower)) ∧
    (∀ s : String,
        (¬ ∃ ds : List Char, ds.length = 6 ∧ (∀ c ∈ ds, isHexDigitC c = true) ∧
            (s.toList = ds ∨ s.toList = '#' :: ds)) →
        hexToRgb s = none) := by
  constructor
  · intro s ds h6 hhex hshape
    rcases ds with _ | ⟨c1, _ | ⟨c2, _ | ⟨c3, _ | ⟨c4, _ | ⟨c5, _ | ⟨c6, _ | ⟨c7, t⟩⟩⟩⟩⟩⟩⟩ <;>
      simp only [List.length_cons, List.length_nil] at h6 <;> try omega
    have hx : hexToRgb s = some ⟨hexPair c1 c2, hexPair c3 c4, hexPair c5 c6⟩ := by
      unfold hexToRgb
      rcases hshape with hs | hs
      · rw [hs]
        simp only [stripHash]
        rw [if_neg (hexDigitC_ne_hash c1 (hhex c1 (by simp)))]
        exact sixHex_of_hex c1 c2 c3 c4 c5 c6 hhex
      · rw [hs]
        simp only [stripHash, if_pos]
        exact sixHex_of_hex c1 c2 c3 c4 c5 c6 hhex
    refine ⟨_, hx, ?_⟩
    rw [rgbToHex_pairs c1 c2 c3 c4 c5 c6 (hhex _ (by simp)) (hhex _ (by simp))
      (hhex _ (by simp)) (hhex _ (by simp)) (hhex _ (by simp)) (hhex _ (by simp))]
    rfl
  · intro s hnshape
    cases hx : hexToRgb s with
    | none => rfl
    | some rgb => exact absurd (hexToRgb_some_shape s rgb hx) hnshape

/-- C10 (witness): the round trip at `"#A1b2C3"` (which re-renders
lowercased) and the null direction at the 3-digit shorthand `"abc"`,
which is not of the six-digit shape. -/
theorem c10_hex_roundtrip_witness :
    (∃ rgb, hexToRgb "#A1b2C3" = some rgb ∧
        rgbToHex rgb = String.mk ('#' :: (['A', '1', 'b', '2', 'C', '3'].map jsToLower))) ∧
    hexToRgb "abc" = none :=
  ⟨c10_hex_roundtrip.1 "#A1b2C3" ['A', '1', 'b', '2', 'C', '3'] (by decide) (by decide)
      (Or.inr (by decide)),
   c10_hex_roundtrip.2 "abc" (by
     rintro ⟨ds, h6, -, hsh | hsh⟩
     · rw [show ds = ("abc" : String).toList from hsh.symm] at h6
       exact absurd h6 (by decide)
     · have hlen : (("abc" : String).toList).length = ('#' :: ds).length := by rw [hsh]
       rw [List.length_cons, h6] at hlen
       exact absurd hlen (by decide))⟩

end StudyBuddy
